import Mathlib

/-!
Formal model of the planning-poker room session engine.

Two server variants exist in the repository and are embedded separately:
* namespace `PP`  — the stable-client-id server (`src/unnamed/part_000`,
  second document): rooms key users by a persistent `clientId`, each user
  owns a set of live socket ids, and display names are unique per room
  among *other* client ids.
* namespace `SJS` — the simplified server (`src/server/server.js`):
  users have no socket set and spectators are blocked from voting.

JavaScript idioms are modelled as follows: objects with string keys become
insertion-ordered association lists (assignment to an existing key keeps
its position, a new key is appended, `delete` removes the entry);
`null`/`undefined` values become `Option`; numbers produced by
`parseFloat` and averaged are modelled as exact rationals (`ℚ`);
`Math.random()` seeds and `nanoid` ids are taken as parameters.
-/

/-- Association-list lookup, modelling JS object property read (`obj[k]`).
JS object keys are unique, so only the first hit matters. -/
def alookup {α : Type} (k : String) : List (String × α) → Option α
  | [] => none
  | (k', v) :: rest => if k' = k then some v else alookup k rest

/-- Association-list update at a key, modelling JS assignment to an
existing property: the entry keeps its position in insertion order. -/
def aupdate {α : Type} (k : String) (v : α) : List (String × α) → List (String × α)
  | [] => []
  | (k', v') :: rest => if k' = k then (k', v) :: rest else (k', v') :: aupdate k v rest

/-- Association-list removal, modelling the JS `delete obj[k]` operator. -/
def aerase {α : Type} (k : String) : List (String × α) → List (String × α)
  | [] => []
  | (k', v') :: rest => if k' = k then rest else (k', v') :: aerase k rest

/-- The ASCII whitespace characters JS `trim`/`parseFloat` skip
(the model restricts JS's Unicode whitespace set to ASCII). -/
def isJsSpace (c : Char) : Bool := c = ' ' || c = '\t' || c = '\n' || c = '\r'

/-- JS `String.prototype.trim`, restricted to ASCII whitespace. -/
def jsTrim (s : String) : String :=
  ⟨((s.toList.dropWhile isJsSpace).reverse.dropWhile isJsSpace).reverse⟩

/-- JS `String.prototype.toLowerCase`, restricted to ASCII letters. -/
def jsToLower (s : String) : String := ⟨s.toList.map Char.toLower⟩

/-- Numeric value of a decimal digit character. -/
def digitVal (c : Char) : ℕ := c.toNat - '0'.toNat

/-- Split off the longest prefix of decimal digits. -/
def takeDigits : List Char → List Char × List Char
  | [] => ([], [])
  | c :: rest =>
    if c.isDigit then
      let (ds, r) := takeDigits rest
      (c :: ds, r)
    else ([], c :: rest)

/-- Value of a digit string read in base 10. -/
def digitsToNat (ds : List Char) : ℕ := ds.foldl (fun a c => 10 * a + digitVal c) 0

/-- Decimal exponent part of a JS float literal: consumed only when
well-formed (`e`/`E`, optional sign, at least one digit); otherwise the
longest valid prefix ends before it and the exponent is 0. -/
def expPart (cs : List Char) : Int :=
  match cs with
  | c :: rest =>
    if c = 'e' ∨ c = 'E' then
      match rest with
      | '+' :: r2 =>
        let ds := (takeDigits r2).1
        if ds.isEmpty then 0 else (digitsToNat ds : Int)
      | '-' :: r2 =>
        let ds := (takeDigits r2).1
        if ds.isEmpty then 0 else -(digitsToNat ds : Int)
      | r2 =>
        let ds := (takeDigits r2).1
        if ds.isEmpty then 0 else (digitsToNat ds : Int)
    else 0
  | [] => 0

/-- Scale a rational by a power of ten (`q * 10 ^ e` with an integer
exponent), kept in `Nat`-power form so it evaluates by `decide`. -/
def applyExp (q : ℚ) (e : Int) : ℚ :=
  if 0 ≤ e then q * (10 : ℚ) ^ e.toNat else q / (10 : ℚ) ^ (-e).toNat

/-- The digits of a JS float literal, as pure data: sign, integer part,
fraction part with its digit count, decimal exponent. -/
structure FloatRep where
  neg : Bool
  intPart : ℕ
  fracPart : ℕ
  fracLen : ℕ
  exp : Int
deriving Repr, DecidableEq

/-- Syntactic phase of JS `parseFloat`: skip leading whitespace, optional
sign, then the longest valid decimal literal prefix (`digits`,
`digits.digits`, `.digits`, optional well-formed exponent); `none` when no
digit is found (NaN). Trailing garbage after the numeric prefix is
ignored, as in JS. -/
def parseFloatRep (s : String) : Option FloatRep :=
  let cs1 := s.toList.dropWhile isJsSpace
  let sc : Bool × List Char :=
    match cs1 with
    | '+' :: r => (false, r)
    | '-' :: r => (true, r)
    | r => (false, r)
  let (ints, cs3) := takeDigits sc.2
  let fc : List Char × List Char :=
    match cs3 with
    | '.' :: r => takeDigits r
    | _ => ([], cs3)
  if ints.isEmpty ∧ fc.1.isEmpty then none
  else
    some { neg := sc.1, intPart := digitsToNat ints, fracPart := digitsToNat fc.1,
           fracLen := fc.1.length, exp := expPart fc.2 }

/-- Rational value of a parsed float literal. -/
def repVal (r : FloatRep) : ℚ :=
  (if r.neg then -1 else 1) *
    applyExp ((r.intPart : ℚ) + (r.fracPart : ℚ) / (10 : ℚ) ^ r.fracLen) r.exp

/-- JS `parseFloat` composed with the `Number.isFinite` filter used by the
reveal aggregator: the value of the longest valid decimal-literal prefix,
or `none` when nothing parses — which also covers `Infinity`, the one
finite-filtered parse the decimal grammar omits. -/
def parseFloatFinite (s : String) : Option ℚ := (parseFloatRep s).map repVal

/-- Numeric value of a (nullable) vote text: `parseFloat(u.vote)` filtered
by `Number.isFinite`; a `null` vote coerces to the string `"null"` in JS,
which parses to NaN, hence `none`. -/
def voteNum (v : Option String) : Option ℚ := v.bind parseFloatFinite

/-- One itemized entry of the reveal payload: `{ id, name, vote }`. -/
structure VoteEntry where
  id : String
  name : String
  vote : Option String
deriving Repr, DecidableEq

/-- The reveal payload: `{ votes: [...], average: number|null }`. -/
structure RevealPayload where
  votes : List VoteEntry
  average : Option ℚ
deriving Repr, DecidableEq

/-- The payload emitted by the `throw` handler (`src/unnamed/part_000`):
fresh event id, sanitized item/img/side/target, two random seeds. -/
structure ThrowPayload where
  id : String
  item : Option String
  img : Option String
  side : String
  targetId : Option String
  s1 : ℚ
  s2 : ℚ
deriving Repr, DecidableEq

namespace PP

/-- A room user of the stable-client-id server:
`{ clientId, name, vote, host, spectator, sockets: Set(socketId) }`. -/
structure User where
  clientId : String
  name : String
  vote : Option String
  host : Bool
  spectator : Bool
  sockets : List String
deriving Repr, DecidableEq

/-- A room: `{ id, deck, story, revealed, users, createdAt }`;
`users` is keyed by client id in insertion order. -/
structure Room where
  id : String
  deck : List String
  story : String
  revealed : Bool
  users : List (String × User)
  createdAt : Nat
deriving Repr, DecidableEq

/-- `DEFAULT_DECK` of `src/unnamed/part_000`. -/
def DEFAULT_DECK : List String :=
  ["0", "1", "2", "3", "5", "8", "13", "20", "40", "100", "?", "☕"]

/-- `createRoom({ deck = DEFAULT_DECK } = {})`: the default deck applies
only when the caller supplies no deck (`none`); a supplied array is taken
as is (the JS spread copy is identity here). `id` stands for the fresh
`nanoid(8)` and `now` for `Date.now()`. -/
def createRoom (id : String) (deck : Option (List String)) (now : Nat) : Room :=
  { id := id, deck := deck.getD DEFAULT_DECK, story := "", revealed := false,
    users := [], createdAt := now }

/-- One user of the sanitized public snapshot:
`{ clientId, name, voted, spectator, host }` — no vote text. -/
structure PublicUser where
  clientId : String
  name : String
  voted : Bool
  spectator : Bool
  host : Bool
deriving Repr, DecidableEq

/-- The sanitized public room snapshot. -/
structure PublicRoom where
  id : String
  deck : List String
  story : String
  revealed : Bool
  users : List (String × PublicUser)
deriving Repr, DecidableEq

/-- Projection of one user into the snapshot: `voted` is `u.vote !== null`. -/
def publicUser (cid : String) (u : User) : PublicUser :=
  { clientId := cid, name := u.name, voted := u.vote.isSome,
    spectator := u.spectator, host := u.host }

/-- `roomStatePublic(room)`: the vote-hiding snapshot broadcast as
`room_state`. -/
def roomStatePublic (room : Room) : PublicRoom :=
  { id := room.id, deck := room.deck, story := room.story, revealed := room.revealed,
    users := room.users.map fun p => (p.1, publicUser p.1 p.2) }

/-- `computeRevealPayload(room)`: itemized `{id, name, vote}` per user in
insertion order; the average divides the left-fold sum of the finite
parses by their count, `null` when none parse. -/
def computeRevealPayload (room : Room) : RevealPayload :=
  let entries := room.users.map fun p => VoteEntry.mk p.1 p.2.name p.2.vote
  let numeric := entries.filterMap fun e => voteNum e.vote
  { votes := entries,
    average :=
      if numeric.isEmpty then none
      else some (numeric.foldl (· + ·) 0 / (numeric.length : ℚ)) }

/-- A message emitted to the room by a socket handler. -/
inductive Emit where
  | roomState : PublicRoom → Emit
  | revealResult : RevealPayload → Emit
deriving Repr, DecidableEq

/-- Error codes of the `join_room` acknowledgment. -/
inductive JoinError where
  | ROOM_NOT_FOUND
  | EMPTY_NAME
  | NAME_TAKEN
deriving Repr, DecidableEq

/-- The duplicate-name test of `join_room`: some entry under a *different*
client id whose stored name, trimmed and lowercased, equals the lowercased
(already trimmed) requested name. -/
def nameTaken (room : Room) (cid raw : String) : Bool :=
  room.users.any fun p => p.1 != cid && (jsToLower (jsTrim p.2.name) == jsToLower raw)

/-- The `join_room` handler body once the room is found (`cid` stands for
`clientId || nanoid(8)`, `sock` for `socket.id`): trims the name, rejects
empty names and names taken by a different client id; otherwise creates the
user (appended) or updates it in place (socket added to the set, name and
spectator refreshed, host promoted but never demoted), clears `revealed`
and broadcasts the snapshot. -/
def joinRoom (room : Room) (name : String) (asHost asSpectator : Bool)
    (cid sock : String) : Except JoinError (Room × List Emit) :=
  let raw := jsTrim name
  if raw = "" then .error .EMPTY_NAME
  else if nameTaken room cid raw then .error .NAME_TAKEN
  else
    let users' :=
      match alookup cid room.users with
      | none =>
        room.users ++ [(cid, { clientId := cid, name := raw, vote := none,
                               host := asHost, spectator := asSpectator,
                               sockets := [sock] })]
      | some u =>
        aupdate cid
          { u with
            sockets := if sock ∈ u.sockets then u.sockets else u.sockets ++ [sock],
            name := raw, spectator := asSpectator,
            host := u.host || asHost }
          room.users
    let room' := { room with users := users', revealed := false }
    .ok (room', [Emit.roomState (roomStatePublic room')])

/-- `set_story`: truncate to 280 characters, broadcast the snapshot. -/
def setStory (room : Room) (story : String) : Room × List Emit :=
  let room' := { room with story := story.take 280 }
  (room', [Emit.roomState (roomStatePublic room')])

/-- `set_deck`: `none` models a non-array payload; ignored when malformed
or empty, otherwise replaces the deck and broadcasts. -/
def setDeck (room : Room) (deck : Option (List String)) : Room × List Emit :=
  match deck with
  | none => (room, [])
  | some l =>
    if l.isEmpty then (room, [])
    else
      let room' := { room with deck := l }
      (room', [Emit.roomState (roomStatePublic room')])

/-- `cast_vote` (`cid` is `socketToClient.get(socket.id)`, `none` when
unbound, and the empty string is JS-falsy): `none` result models the
`{ ok:false }` acknowledgment with no state change; on success the vote is
overwritten as text, the snapshot broadcast, and — when the room is already
revealed — the recomputed reveal payload rebroadcast. -/
def castVote (room : Room) (cid : Option String) (value : String) :
    Option (Room × List Emit) :=
  match cid with
  | none => none
  | some c =>
    if c = "" then none
    else
      match alookup c room.users with
      | none => none
      | some u =>
        let room' := { room with users := aupdate c { u with vote := some value } room.users }
        some (room',
          [Emit.roomState (roomStatePublic room')] ++
            (if room'.revealed then [Emit.revealResult (computeRevealPayload room')] else []))

/-- `reveal`: set `revealed`, broadcast reveal payload then snapshot. -/
def reveal (room : Room) : Room × List Emit :=
  let room' := { room with revealed := true }
  (room', [Emit.revealResult (computeRevealPayload room'),
           Emit.roomState (roomStatePublic room')])

/-- `reset(roomId, clearStory)`: clear `revealed`, optionally clear the
story, null every vote, broadcast the snapshot. -/
def reset (room : Room) (clearStory : Bool) : Room × List Emit :=
  let room' := { room with
    revealed := false,
    story := if clearStory then "" else room.story,
    users := room.users.map fun p => (p.1, { p.2 with vote := none }) }
  (room', [Emit.roomState (roomStatePublic room')])

/-- Body of the per-room loop of the `disconnect` handler for one room:
when the client id has a user entry, this socket is removed from its
socket set, the user is deleted when no sockets remain, and the snapshot
is broadcast (`true`); otherwise nothing happens (`false`). -/
def disconnectFromRoom (room : Room) (cid sock : String) : Room × Bool :=
  match alookup cid room.users with
  | none => (room, false)
  | some u =>
    let socks' := u.sockets.erase sock
    if socks'.isEmpty then ({ room with users := aerase cid room.users }, true)
    else ({ room with users := aupdate cid { u with sockets := socks' } room.users }, true)

/-- Sanitized throw payload: `item ? String(item) : null`, `img || null`,
side normalized to left/right, `targetId || null`, fresh id and seeds. -/
def throwPayloadOf (item img : Option String) (side : String) (targetId : Option String)
    (freshId : String) (s1 s2 : ℚ) : ThrowPayload :=
  { id := freshId,
    item := match item with | some s => if s = "" then none else some s | none => none,
    img := match img with | some s => if s = "" then none else some s | none => none,
    side := if side = "right" then "right" else "left",
    targetId := match targetId with | some s => if s = "" then none else some s | none => none,
    s1 := s1, s2 := s2 }

/-- The room registry (`rooms` map, insertion-ordered). -/
abbrev Registry := List (String × Room)

/-- The `throw` handler over the registry: bails out (no emit) only when
`roomId` is JS-falsy; otherwise emits the sanitized payload to the room id
— without consulting the registry, which is returned untouched. -/
def throwStep (rooms : Registry) (roomId : String) (item img : Option String)
    (side : String) (targetId : Option String) (freshId : String) (s1 s2 : ℚ) :
    Registry × Option ThrowPayload :=
  if roomId = "" then (rooms, none)
  else (rooms, some (throwPayloadOf item img side targetId freshId s1 s2))

/-- One inbound room-mutating event, with its external inputs resolved
(fresh ids, socket ids, bound client ids taken as data). -/
inductive Op where
  | join (name : String) (asHost asSpectator : Bool) (cid sock : String)
  | setStory (text : String)
  | setDeck (labels : Option (List String))
  | castVote (cid : Option String) (value : String)
  | reveal
  | reset (clearStory : Bool)
  | disconnect (cid sock : String)
deriving Repr, DecidableEq

/-- The room state after one event: failed validations leave the room
untouched (they only acknowledge the caller). -/
def applyOp (room : Room) : Op → Room
  | .join n h s c k =>
    match joinRoom room n h s c k with
    | .ok (r', _) => r'
    | .error _ => room
  | .setStory t => (setStory room t).1
  | .setDeck l => (setDeck room l).1
  | .castVote c v =>
    match castVote room c v with
    | some (r', _) => r'
    | none => room
  | .reveal => (reveal room).1
  | .reset b => (reset room b).1
  | .disconnect c k => (disconnectFromRoom room c k).1

end PP

namespace SJS

/-- A room user of `src/server/server.js`: `{ name, vote, spectator, host }`. -/
structure User where
  name : String
  vote : Option String
  spectator : Bool
  host : Bool
deriving Repr, DecidableEq

/-- A room of `src/server/server.js` (no `createdAt` field). -/
structure Room where
  id : String
  deck : List String
  story : String
  revealed : Bool
  users : List (String × User)
deriving Repr, DecidableEq

/-- One user of the sanitized snapshot: `{ name, voted, spectator, host }`. -/
structure PublicUser where
  name : String
  voted : Bool
  spectator : Bool
  host : Bool
deriving Repr, DecidableEq

/-- The sanitized public room snapshot of `src/server/server.js`. -/
structure PublicRoom where
  id : String
  deck : List String
  story : String
  revealed : Bool
  users : List (String × PublicUser)
deriving Repr, DecidableEq

/-- `publicState(room)`: the vote-hiding projection. -/
def publicState (room : Room) : PublicRoom :=
  { id := room.id, deck := room.deck, story := room.story, revealed := room.revealed,
    users := room.users.map fun p =>
      (p.1, { name := p.2.name, voted := p.2.vote.isSome,
              spectator := p.2.spectator, host := p.2.host }) }

/-- `computeReveal(room)`: same aggregation shape as the other variant
(`!isNaN` in place of `Number.isFinite`, which the finite-parse model
already folds in). -/
def computeReveal (room : Room) : RevealPayload :=
  let votes := room.users.map fun p => VoteEntry.mk p.1 p.2.name p.2.vote
  let nums := votes.filterMap fun e => voteNum e.vote
  { votes := votes,
    average :=
      if nums.isEmpty then none
      else some (nums.foldl (· + ·) 0 / (nums.length : ℚ)) }

/-- A message emitted to the room by a `src/server/server.js` handler. -/
inductive Msg where
  | roomState : PublicRoom → Msg
  | revealResult : RevealPayload → Msg
deriving Repr, DecidableEq

/-- The `cast_vote` handler of `src/server/server.js` with the room
already fetched (`cid` is `socketToClient.get(socket.id)`): returns
silently — no mutation, no broadcast — when the socket is unbound, the
client is not a room user, or the user is a spectator; otherwise stores
the vote, broadcasts the snapshot, and rebroadcasts the recomputed reveal
payload when the room is revealed. -/
def castVote (room : Room) (cid : Option String) (value : String) : Room × List Msg :=
  match cid with
  | none => (room, [])
  | some c =>
    match alookup c room.users with
    | none => (room, [])
    | some u =>
      if u.spectator then (room, [])
      else
        let room' := { room with users := aupdate c { u with vote := some value } room.users }
        (room',
          [Msg.roomState (publicState room')] ++
            (if room'.revealed then [Msg.revealResult (computeReveal room')] else []))

end SJS

/-! ### Association-list lemmas -/

theorem alookup_nil {α : Type} (k : String) : alookup k ([] : List (String × α)) = none := rfl

theorem alookup_cons {α : Type} (k k' : String) (v : α) (l : List (String × α)) :
    alookup k ((k', v) :: l) = if k' = k then some v else alookup k l := rfl

theorem alookup_eq_none_of_not_mem_keys {α : Type} {k : String} :
    ∀ {l : List (String × α)}, k ∉ l.map Prod.fst → alookup k l = none := by
  intro l
  induction l with
  | nil => intro _; rfl
  | cons hd tl ih =>
    intro h
    obtain ⟨k', v'⟩ := hd
    simp only [List.map_cons, List.mem_cons, not_or] at h
    have hk : ¬k' = k := fun he => h.1 he.symm
    simp [alookup_cons, hk, ih h.2]

theorem alookup_mem {α : Type} {k : String} {v : α} :
    ∀ {l : List (String × α)}, alookup k l = some v → (k, v) ∈ l := by
  intro l
  induction l with
  | nil => intro h; simp [alookup_nil] at h
  | cons hd tl ih =>
    intro h
    obtain ⟨k', v'⟩ := hd
    rw [alookup_cons] at h
    by_cases he : k' = k
    · subst he
      rw [if_pos rfl] at h
      injection h with h
      subst h
      exact List.mem_cons_self _ _
    · rw [if_neg he] at h
      exact List.mem_cons_of_mem _ (ih h)

theorem alookup_aupdate_self {α : Type} (k : String) (v : α) :
    ∀ (l : List (String × α)), alookup k (aupdate k v l) = (alookup k l).map fun _ => v := by
  intro l
  induction l with
  | nil => rfl
  | cons hd tl ih =>
    obtain ⟨k', v'⟩ := hd
    by_cases h : k' = k <;> simp [aupdate, alookup_cons, h, ih]

theorem alookup_aupdate_ne {α : Type} {c k : String} (h : c ≠ k) (v : α) :
    ∀ (l : List (String × α)), alookup c (aupdate k v l) = alookup c l := by
  intro l
  induction l with
  | nil => rfl
  | cons hd tl ih =>
    obtain ⟨k', v'⟩ := hd
    by_cases hk : k' = k
    · subst hk
      have : k' ≠ c := fun he => h (he.symm)
      simp [aupdate, alookup_cons, this]
    · by_cases hc : k' = c <;> simp [aupdate, alookup_cons, hk, hc, h, ih]

theorem alookup_aerase_ne {α : Type} {c k : String} (h : c ≠ k) :
    ∀ (l : List (String × α)), alookup c (aerase k l) = alookup c l := by
  intro l
  induction l with
  | nil => rfl
  | cons hd tl ih =>
    obtain ⟨k', v'⟩ := hd
    by_cases hk : k' = k
    · subst hk
      have : k' ≠ c := fun he => h (he.symm)
      simp [aerase, alookup_cons, this]
    · by_cases hc : k' = c <;> simp [aerase, alookup_cons, hk, hc, h, ih]

theorem alookup_aerase_self {α : Type} {k : String} :
    ∀ {l : List (String × α)}, (l.map Prod.fst).Nodup → alookup k (aerase k l) = none := by
  intro l
  induction l with
  | nil => intro _; rfl
  | cons hd tl ih =>
    intro hnd
    obtain ⟨k', v'⟩ := hd
    simp only [List.map_cons, List.nodup_cons] at hnd
    by_cases h : k' = k
    · subst h
      simp only [aerase, if_pos rfl]
      exact alookup_eq_none_of_not_mem_keys hnd.1
    · simp [aerase, alookup_cons, h, ih hnd.2]

theorem map_pair_aupdate {α β : Type} (f : String → α → β) (k : String) (v : α) :
    ∀ (l : List (String × α)),
      (aupdate k v l).map (fun p => (p.1, f p.1 p.2)) =
        aupdate k (f k v) (l.map fun p => (p.1, f p.1 p.2)) := by
  intro l
  induction l with
  | nil => rfl
  | cons hd tl ih =>
    obtain ⟨k', v'⟩ := hd
    by_cases h : k' = k <;> simp [aupdate, h, ih]

theorem erase_eq_nil_iff {l : List String} {a : String} (h : a ∈ l) :
    l.erase a = [] ↔ l = [a] := by
  cases l with
  | nil => simp at h
  | cons b t =>
    by_cases hb : b = a
    · subst hb
      simp [List.erase_cons_head]
    · simp [List.erase_cons, hb]

/-! ### C1 — join_room name uniqueness -/

/-- Room used to refute the claim that a join by an existing identity
always succeeds: client "A" holds "alice", client "B" holds "bob". -/
def c1Room : PP.Room :=
  { id := "r", deck := PP.DEFAULT_DECK, story := "", revealed := false,
    users :=
      [("A", { clientId := "A", name := "alice", vote := none, host := true,
               spectator := false, sockets := ["s1"] }),
       ("B", { clientId := "B", name := "bob", vote := none, host := false,
               spectator := false, sockets := ["s2"] })],
    createdAt := 0 }

/-- C1 (counterexample): identity "A" already exists in the room, yet its
rejoin under the name "Bob" — held case-insensitively by the different
identity "B" — fails with NAME_TAKEN, so a join by an existing identity
does not succeed under *any* name. -/
theorem c1_counterexample :
    (alookup "A" c1Room.users).isSome = true ∧
      PP.joinRoom c1Room "Bob" false false "A" "s3" =
        .error PP.JoinError.NAME_TAKEN :=
  ⟨rfl, rfl⟩

theorem nameTaken_iff (room : PP.Room) (cid raw : String) :
    PP.nameTaken room cid raw = true ↔
      ∃ p ∈ room.users, p.1 ≠ cid ∧ jsToLower (jsTrim p.2.name) = jsToLower raw := by
  simp [PP.nameTaken, List.any_eq_true]

/-- C1 (amended): a join fails NAME_TAKEN exactly when the trimmed name is
nonempty and a *different* client id already holds the same
case-insensitive trimmed name; it fails EMPTY_NAME exactly when the
trimmed name is empty; and it succeeds — for a new or an existing
identity alike — exactly when the trimmed name is nonempty and no
different identity holds it. -/
theorem c1_join_characterization (room : PP.Room) (name : String)
    (asHost asSpectator : Bool) (cid sock : String) :
    (PP.joinRoom room name asHost asSpectator cid sock = .error PP.JoinError.NAME_TAKEN ↔
      (jsTrim name ≠ "" ∧
        ∃ p ∈ room.users, p.1 ≠ cid ∧ jsToLower (jsTrim p.2.name) = jsToLower (jsTrim name))) ∧
    (PP.joinRoom room name asHost asSpectator cid sock = .error PP.JoinError.EMPTY_NAME ↔
      jsTrim name = "") ∧
    ((∃ r' emits, PP.joinRoom room name asHost asSpectator cid sock = .ok (r', emits)) ↔
      (jsTrim name ≠ "" ∧
        ¬∃ p ∈ room.users, p.1 ≠ cid ∧ jsToLower (jsTrim p.2.name) = jsToLower (jsTrim name))) := by
  by_cases h0 : jsTrim name = ""
  · simp [PP.joinRoom, h0]
  · by_cases h1 : PP.nameTaken room cid (jsTrim name)
    · have ht := (nameTaken_iff room cid (jsTrim name)).mp h1
      simp [PP.joinRoom, h0, h1, ht]
    · simp only [PP.joinRoom, if_neg h0, Bool.not_eq_true] at h1 ⊢
      rw [if_neg (by simp [h1])]
      simp [h0]
      exact fun x x1 hmem hx hEq =>
          absurd ((nameTaken_iff room cid (jsTrim name)).mpr ⟨(x, x1), hmem, hx, hEq⟩)
            (by simp [h1])

/-! ### C2 — the broadcast snapshot hides raw votes -/

/-- Two users agreeing on everything except possibly the raw text of
votes that are cast in both states: the key identity fields and flags
coincide and `vote` is non-null in one exactly when it is in the other. -/
def UserVoteEquiv (u v : PP.User) : Prop :=
  u.clientId = v.clientId ∧ u.name = v.name ∧ u.host = v.host ∧
    u.spectator = v.spectator ∧ u.sockets = v.sockets ∧ u.vote.isSome = v.vote.isSome

/-- Two rooms differing only in the text of non-null votes. -/
def RoomVoteEquiv (r1 r2 : PP.Room) : Prop :=
  r1.id = r2.id ∧ r1.deck = r2.deck ∧ r1.story = r2.story ∧ r1.revealed = r2.revealed ∧
    r1.createdAt = r2.createdAt ∧
    List.Forall₂ (fun p q => p.1 = q.1 ∧ UserVoteEquiv p.2 q.2) r1.users r2.users

theorem map_publicUser_eq_of_forall₂ :
    ∀ {l1 l2 : List (String × PP.User)},
      List.Forall₂ (fun p q => p.1 = q.1 ∧ UserVoteEquiv p.2 q.2) l1 l2 →
      l1.map (fun p => (p.1, PP.publicUser p.1 p.2)) =
        l2.map (fun p => (p.1, PP.publicUser p.1 p.2)) := by
  intro l1 l2 hf
  induction hf with
  | nil => rfl
  | cons hpq _ ih =>
    obtain ⟨hk, -, hn, hh, hs, -, hv⟩ := hpq
    simp only [List.map_cons, ih, List.cons.injEq, and_true, Prod.mk.injEq, hk, true_and]
    simp [PP.publicUser, hk, hn, hh, hs, hv]

/-- C2: the broadcast snapshot never depends on the raw text of cast
votes — any two rooms that differ only in non-null vote values have
identical snapshots — and a successful `cast_vote` changes the snapshot
only at the voter's entry, and there only by setting `voted` to true. -/
theorem c2_snapshot_hides_votes :
    (∀ r1 r2 : PP.Room, RoomVoteEquiv r1 r2 →
        PP.roomStatePublic r1 = PP.roomStatePublic r2) ∧
    (∀ (room : PP.Room) (c value : String) (u : PP.User) (r' : PP.Room)
        (emits : List PP.Emit),
        alookup c room.users = some u →
        PP.castVote room (some c) value = some (r', emits) →
        PP.roomStatePublic r' =
          { PP.roomStatePublic room with
            users := aupdate c { PP.publicUser c u with voted := true }
              (PP.roomStatePublic room).users }) := by
  constructor
  · rintro r1 r2 ⟨h1, h2, h3, h4, -, hf⟩
    simp only [PP.roomStatePublic, h1, h2, h3, h4, PP.PublicRoom.mk.injEq, true_and,
      and_true]
    exact map_publicUser_eq_of_forall₂ hf
  · intro room c value u r' emits hu hcast
    simp only [PP.castVote] at hcast
    split at hcast
    · exact absurd hcast (by simp)
    · rw [hu] at hcast
      simp only [Option.some.injEq, Prod.mk.injEq] at hcast
      obtain ⟨hr, -⟩ := hcast
      subst hr
      simp only [PP.roomStatePublic, map_pair_aupdate]
      rfl

/-- Users of the C2 witness rooms. -/
def mkUser (cid nm : String) (v : Option String) : PP.User :=
  { clientId := cid, name := nm, vote := v, host := false, spectator := false,
    sockets := ["k" ++ cid] }

/-- Witness room: "A" voted "3", "B" has not voted. -/
def c2RoomA : PP.Room :=
  { id := "r2", deck := PP.DEFAULT_DECK, story := "s", revealed := false,
    users := [("A", mkUser "A" "ann" (some "3")), ("B", mkUser "B" "bea" none)],
    createdAt := 7 }

/-- Same room except "A" voted "8" instead of "3". -/
def c2RoomB : PP.Room :=
  { c2RoomA with users := [("A", mkUser "A" "ann" (some "8")), ("B", mkUser "B" "bea" none)] }

/-- C2 witness: concretely, changing A's hidden vote from "3" to "8"
leaves the snapshot identical, and a concrete `cast_vote` by "B" changes
the snapshot only by flipping B's `voted` flag. -/
theorem c2_witness :
    PP.roomStatePublic c2RoomA = PP.roomStatePublic c2RoomB ∧
      PP.roomStatePublic
          { c2RoomA with
            users := aupdate "B" { mkUser "B" "bea" none with vote := some "5" } c2RoomA.users } =
        { PP.roomStatePublic c2RoomA with
          users := aupdate "B" { PP.publicUser "B" (mkUser "B" "bea" none) with voted := true }
            (PP.roomStatePublic c2RoomA).users } :=
  ⟨c2_snapshot_hides_votes.1 c2RoomA c2RoomB
    ⟨rfl, rfl, rfl, rfl, rfl,
      List.Forall₂.cons ⟨rfl, rfl, rfl, rfl, rfl, rfl, rfl⟩
        (List.Forall₂.cons ⟨rfl, rfl, rfl, rfl, rfl, rfl, rfl⟩ List.Forall₂.nil)⟩,
    c2_snapshot_hides_votes.2 c2RoomA "B" "5" (mkUser "B" "bea" none) _ _ rfl rfl⟩

/-! ### C3 — reveal aggregation -/

/-- Witness room for the numeric average: votes "3", "8" and "?". -/
def c3RoomNum : PP.Room :=
  { id := "r3", deck := PP.DEFAULT_DECK, story := "", revealed := true,
    users :=
      [("A", mkUser "A" "ann" (some "3")),
       ("B", mkUser "B" "bea" (some "8")),
       ("C", mkUser "C" "cpy" (some "?"))],
    createdAt := 0 }

/-- Witness room with no parseable vote: votes "?" and "☕". -/
def c3RoomNoNum : PP.Room :=
  { id := "r3n", deck := PP.DEFAULT_DECK, story := "", revealed := true,
    users :=
      [("A", mkUser "A" "ann" (some "?")),
       ("B", mkUser "B" "bea" (some "☕"))],
    createdAt := 0 }

theorem parseFloatFinite_3 : parseFloatFinite "3" = some 3 := by
  rw [parseFloatFinite, (by decide : parseFloatRep "3" = some ⟨false, 3, 0, 0, 0⟩)]
  norm_num [repVal, applyExp]

theorem parseFloatFinite_8 : parseFloatFinite "8" = some 8 := by
  rw [parseFloatFinite, (by decide : parseFloatRep "8" = some ⟨false, 8, 0, 0, 0⟩)]
  norm_num [repVal, applyExp]

theorem parseFloatFinite_qm : parseFloatFinite "?" = none := by
  rw [parseFloatFinite, (by decide : parseFloatRep "?" = none)]
  rfl

theorem parseFloatFinite_coffee : parseFloatFinite "☕" = none := by
  rw [parseFloatFinite, (by decide : parseFloatRep "☕" = none)]
  rfl

/-- C3: the reveal payload lists one `{id, name, vote}` entry per
participant in insertion order; its average is the arithmetic mean of the
votes whose text parses as a finite float and `null` when none does —
unparseable votes are dropped from the mean but kept in the list.
Concretely, votes {"3","8","?"} average to 5.5 and {"?","☕"} to null. -/
theorem c3_reveal_aggregation :
    (∀ room : PP.Room,
      (PP.computeRevealPayload room).votes =
        room.users.map (fun p => { id := p.1, name := p.2.name, vote := p.2.vote }) ∧
      (PP.computeRevealPayload room).average =
        (if (room.users.filterMap fun p => voteNum p.2.vote) = [] then none
         else some ((room.users.filterMap fun p => voteNum p.2.vote).sum /
           ((room.users.filterMap fun p => voteNum p.2.vote).length : ℚ)))) ∧
    (PP.computeRevealPayload c3RoomNum).average = some (11 / 2) ∧
    (PP.computeRevealPayload c3RoomNoNum).average = none := by
  refine ⟨fun room => ⟨rfl, ?_⟩, ?_, ?_⟩
  · simp only [PP.computeRevealPayload, List.filterMap_map, Function.comp_def,
      List.isEmpty_iff, List.sum_eq_foldl]
  · simp [PP.computeRevealPayload, c3RoomNum, mkUser, voteNum, List.filterMap_cons,
      parseFloatFinite_3, parseFloatFinite_8, parseFloatFinite_qm]
    norm_num
  · simp [PP.computeRevealPayload, c3RoomNoNum, mkUser, voteNum, List.filterMap_cons,
      parseFloatFinite_qm, parseFloatFinite_coffee]

/-! ### C4 — revealed is false after any successful join -/

/-- C4: every successful join — whatever the identity, new or rejoining —
leaves the room with `revealed = false`. -/
theorem c4_join_clears_revealed (room : PP.Room) (name : String)
    (asHost asSpectator : Bool) (cid sock : String) (r' : PP.Room) (emits : List PP.Emit)
    (h : PP.joinRoom room name asHost asSpectator cid sock = .ok (r', emits)) :
    r'.revealed = false := by
  simp only [PP.joinRoom] at h
  split at h
  · exact absurd h (by simp)
  · split at h
    · exact absurd h (by simp)
    · rw [Except.ok.injEq, Prod.mk.injEq] at h
      obtain ⟨hr, -⟩ := h
      subst hr
      rfl

/-- The room produced by the concrete successful join of the C4 witness. -/
def c4Room : PP.Room :=
  { id := "w", deck := PP.DEFAULT_DECK, story := "", revealed := false,
    users :=
      [("A", { clientId := "A", name := "alice", vote := none, host := true,
               spectator := false, sockets := ["s1"] })],
    createdAt := 0 }

/-- C4 witness: a concrete successful join of "alice" into a fresh room
really leaves `revealed = false`. -/
theorem c4_witness : c4Room.revealed = false :=
  c4_join_clears_revealed (PP.createRoom "w" none 0) "alice" true false "A" "s1"
    c4Room [PP.Emit.roomState (PP.roomStatePublic c4Room)] rfl

/-! ### C5 — disconnect removes a connection, then maybe the participant -/

/-- C5: on disconnect of a bound connection, per room: nothing happens —
in particular no broadcast — when the client has no user entry; when it
has one (a JS Set of sockets containing this socket, under unique JS
object keys), the snapshot is broadcast, the socket leaves the user's
connection set, the user survives exactly when this was not its last
connection (keeping all other fields), and every other client's entry is
untouched. -/
theorem c5_disconnect :
    (∀ (room : PP.Room) (cid sock : String),
        alookup cid room.users = none →
        PP.disconnectFromRoom room cid sock = (room, false)) ∧
    (∀ (room : PP.Room) (cid sock : String) (u : PP.User),
        alookup cid room.users = some u →
        sock ∈ u.sockets → u.sockets.Nodup →
        (room.users.map Prod.fst).Nodup →
        (PP.disconnectFromRoom room cid sock).2 = true ∧
        (alookup cid (PP.disconnectFromRoom room cid sock).1.users = none ↔
          u.sockets = [sock]) ∧
        (∀ u', alookup cid (PP.disconnectFromRoom room cid sock).1.users = some u' →
          u'.sockets = u.sockets.erase sock ∧ sock ∉ u'.sockets ∧
          u'.name = u.name ∧ u'.vote = u.vote ∧ u'.host = u.host ∧
          u'.spectator = u.spectator) ∧
        (∀ c, c ≠ cid →
          alookup c (PP.disconnectFromRoom room cid sock).1.users =
            alookup c room.users)) := by
  constructor
  · intro room cid sock h
    simp [PP.disconnectFromRoom, h]
  · intro room cid sock u hu hmem hnd hkeys
    simp only [PP.disconnectFromRoom, hu]
    by_cases he : (u.sockets.erase sock).isEmpty = true
    · have hse : u.sockets.erase sock = [] := by simpa using he
      rw [if_pos he]
      refine ⟨rfl, ?_, ?_, ?_⟩
      · rw [alookup_aerase_self hkeys]
        simp [(erase_eq_nil_iff hmem).mp hse]
      · intro u' h'
        rw [alookup_aerase_self hkeys] at h'
        cases h'
      · intro c hc
        exact alookup_aerase_ne hc _
    · have hne : u.sockets.erase sock ≠ [] := by simpa using he
      rw [if_neg he]
      refine ⟨rfl, ?_, ?_, ?_⟩
      · rw [alookup_aupdate_self, hu]
        simp only [Option.map_some']
        constructor
        · intro h; cases h
        · intro h
          exact absurd (by simp [h] : u.sockets.erase sock = []) hne
      · intro u' h'
        rw [alookup_aupdate_self, hu] at h'
        simp only [Option.map_some', Option.some.injEq] at h'
        subst h'
        exact ⟨rfl, hnd.not_mem_erase, rfl, rfl, rfl, rfl⟩
      · intro c hc
        exact alookup_aupdate_ne hc _ _

/-- Room of the C5 witness: "A" holds two live connections, "B" one. -/
def c5Room : PP.Room :=
  { id := "r5", deck := PP.DEFAULT_DECK, story := "", revealed := false,
    users :=
      [("A", { clientId := "A", name := "ann", vote := none, host := false,
               spectator := false, sockets := ["s1", "s2"] }),
       ("B", { clientId := "B", name := "bea", vote := none, host := false,
               spectator := false, sockets := ["s3"] })],
    createdAt := 0 }

/-- C5 witness: in a concrete room where "A" holds sockets {s1, s2},
disconnecting s1 broadcasts, keeps the participant (it was not the last
connection), and leaves "B" untouched. -/
theorem c5_witness :
    (PP.disconnectFromRoom c5Room "A" "s1").2 = true ∧
      (alookup "A" (PP.disconnectFromRoom c5Room "A" "s1").1.users = none ↔
        ["s1", "s2"] = ["s1"]) ∧
      (∀ u', alookup "A" (PP.disconnectFromRoom c5Room "A" "s1").1.users = some u' →
        u'.sockets = ["s1", "s2"].erase "s1" ∧ "s1" ∉ u'.sockets ∧
        u'.name = "ann" ∧ u'.vote = none ∧ u'.host = false ∧ u'.spectator = false) ∧
      (∀ c, c ≠ "A" →
        alookup c (PP.disconnectFromRoom c5Room "A" "s1").1.users =
          alookup c c5Room.users) :=
  c5_disconnect.2 c5Room "A" "s1"
    { clientId := "A", name := "ann", vote := none, host := false,
      spectator := false, sockets := ["s1", "s2"] }
    rfl (by decide) (by decide) (by decide)

/-! ### C6 — a vote cast after reveal updates the live reveal payload -/

/-- C6: when the room is already revealed, a successful `cast_vote`
stores the new vote, leaves `revealed` (and id, deck, story) untouched —
no fresh reveal operation — and emits, besides the snapshot, the reveal
payload recomputed from the updated room, whose itemized list carries the
voter's new vote text. -/
theorem c6_late_vote_updates_reveal (room : PP.Room) (c value : String) (u : PP.User)
    (hrev : room.revealed = true) (hu : alookup c room.users = some u) (hc : c ≠ "") :
    ∃ r', PP.castVote room (some c) value =
        some (r', [PP.Emit.roomState (PP.roomStatePublic r'),
                   PP.Emit.revealResult (PP.computeRevealPayload r')]) ∧
      alookup c r'.users = some { u with vote := some value } ∧
      r'.revealed = true ∧ r'.id = room.id ∧ r'.deck = room.deck ∧
      r'.story = room.story ∧
      VoteEntry.mk c u.name (some value) ∈ (PP.computeRevealPayload r').votes := by
  refine ⟨{ room with users := aupdate c { u with vote := some value } room.users },
    ?_, ?_, hrev, rfl, rfl, rfl, ?_⟩
  · simp [PP.castVote, hc, hu, hrev]
  · rw [alookup_aupdate_self, hu]
    rfl
  · have hmem : (c, { u with vote := some value }) ∈
        aupdate c { u with vote := some value } room.users :=
      alookup_mem (by rw [alookup_aupdate_self, hu]; rfl)
    exact List.mem_map.mpr ⟨(c, { u with vote := some value }), hmem, rfl⟩

/-- Room of the C6 witness: already revealed, "A" voted "3". -/
def c6Room : PP.Room :=
  { id := "r6", deck := PP.DEFAULT_DECK, story := "", revealed := true,
    users := [("A", mkUser "A" "ann" (some "3"))], createdAt := 0 }

/-- C6 witness: a concrete late vote "13" by "A" in a revealed room is
stored and rebroadcast through the recomputed reveal payload. -/
theorem c6_witness :
    ∃ r', PP.castVote c6Room (some "A") "13" =
        some (r', [PP.Emit.roomState (PP.roomStatePublic r'),
                   PP.Emit.revealResult (PP.computeRevealPayload r')]) ∧
      alookup "A" r'.users = some { mkUser "A" "ann" (some "3") with vote := some "13" } ∧
      r'.revealed = true ∧ r'.id = c6Room.id ∧ r'.deck = c6Room.deck ∧
      r'.story = c6Room.story ∧
      VoteEntry.mk "A" "ann" (some "13") ∈ (PP.computeRevealPayload r').votes :=
  c6_late_vote_updates_reveal c6Room "A" "13" (mkUser "A" "ann" (some "3"))
    rfl rfl (by decide)

/-! ### C7 — reset clears votes and revealed, and nothing else -/

/-- C7: `reset` sets `revealed := false`, nulls every participant's vote
while preserving key, name, flags and connections entry-by-entry, clears
the story exactly when `clearStory` is set, leaves id, deck and creation
time unchanged, and broadcasts the updated snapshot. -/
theorem c7_reset_frame (room : PP.Room) (clearStory : Bool) :
    (PP.reset room clearStory).1.revealed = false ∧
    (PP.reset room clearStory).1.id = room.id ∧
    (PP.reset room clearStory).1.deck = room.deck ∧
    (PP.reset room clearStory).1.createdAt = room.createdAt ∧
    (PP.reset room clearStory).1.story = (if clearStory then "" else room.story) ∧
    List.Forall₂
      (fun p q => q.1 = p.1 ∧ q.2.vote = none ∧ q.2.clientId = p.2.clientId ∧
        q.2.name = p.2.name ∧ q.2.host = p.2.host ∧ q.2.spectator = p.2.spectator ∧
        q.2.sockets = p.2.sockets)
      room.users (PP.reset room clearStory).1.users ∧
    (PP.reset room clearStory).2 =
      [PP.Emit.roomState (PP.roomStatePublic (PP.reset room clearStory).1)] := by
  refine ⟨rfl, rfl, rfl, rfl, rfl, ?_, rfl⟩
  have : (PP.reset room clearStory).1.users =
      room.users.map fun p => (p.1, { p.2 with vote := none }) := rfl
  rw [this, List.forall₂_map_right_iff]
  exact List.forall₂_same.mpr fun p _ => ⟨rfl, rfl, rfl, rfl, rfl, rfl, rfl⟩

/-! ### C8 — deck non-emptiness across the room lifetime -/

/-- C8 (counterexample): a creation request carrying an explicitly empty
deck array bypasses the JS default (which applies only to an absent deck)
and installs an empty deck, so creation alone does not guarantee a
non-empty deck. -/
theorem c8_counterexample : (PP.createRoom "r" (some []) 0).deck = [] := rfl

theorem joinRoom_ok_deck (room : PP.Room) (name : String) (asHost asSpectator : Bool)
    (cid sock : String) (r' : PP.Room) (emits : List PP.Emit)
    (h : PP.joinRoom room name asHost asSpectator cid sock = .ok (r', emits)) :
    r'.deck = room.deck := by
  simp only [PP.joinRoom] at h
  split at h
  · exact absurd h (by simp)
  · split at h
    · exact absurd h (by simp)
    · rw [Except.ok.injEq, Prod.mk.injEq] at h
      obtain ⟨hr, -⟩ := h
      subst hr
      rfl

theorem castVote_some_deck (room : PP.Room) (cid : Option String) (value : String)
    (r' : PP.Room) (emits : List PP.Emit)
    (h : PP.castVote room cid value = some (r', emits)) : r'.deck = room.deck := by
  cases cid with
  | none => exact absurd h (by simp [PP.castVote])
  | some c =>
    simp only [PP.castVote] at h
    split at h
    · exact absurd h (by simp)
    · cases halu : alookup c room.users with
      | none => rw [halu] at h; exact absurd h (by simp)
      | some u =>
        rw [halu] at h
        simp only [Option.some.injEq, Prod.mk.injEq] at h
        obtain ⟨hr, -⟩ := h
        subst hr
        rfl

theorem applyOp_preserves_deck_nonempty (room : PP.Room) (op : PP.Op)
    (h : room.deck ≠ []) : (PP.applyOp room op).deck ≠ [] := by
  cases op with
  | join n hB sB c k =>
    simp only [PP.applyOp]
    cases hj : PP.joinRoom room n hB sB c k with
    | error e => exact h
    | ok p =>
      obtain ⟨r', em⟩ := p
      rw [joinRoom_ok_deck room n hB sB c k r' em hj]
      exact h
  | setStory t => simpa only [PP.applyOp, PP.setStory] using h
  | setDeck l =>
    cases l with
    | none => exact h
    | some lst =>
      simp only [PP.applyOp, PP.setDeck]
      split
      · simpa using h
      · next hne => simpa using fun hc => hne (by simp [hc])
  | castVote c v =>
    simp only [PP.applyOp]
    cases hc : PP.castVote room c v with
    | none => exact h
    | some p =>
      obtain ⟨r', em⟩ := p
      rw [castVote_some_deck room c v r' em hc]
      exact h
  | reveal => simpa only [PP.applyOp, PP.reveal] using h
  | reset b => simpa only [PP.applyOp, PP.reset] using h
  | disconnect c k =>
    simp only [PP.applyOp, PP.disconnectFromRoom]
    cases halu : alookup c room.users with
    | none => exact h
    | some u =>
      dsimp only
      split <;> exact h

/-- C8 (amended): provided the creation request supplies no deck or a
non-empty one, every room state reachable by any sequence of operations
has a non-empty deck — creation then installs a non-empty deck, `setDeck`
ignores empty or malformed label arrays, and no other operation touches
the deck. (The unamended claim fails at creation with an explicitly empty
deck array.) -/
theorem c8_deck_nonempty_reachable (id : String) (dk : Option (List String)) (now : Nat)
    (ops : List PP.Op) (hdk : ∀ l, dk = some l → l ≠ []) :
    (ops.foldl PP.applyOp (PP.createRoom id dk now)).deck ≠ [] := by
  have h0 : (PP.createRoom id dk now).deck ≠ [] := by
    cases dk with
    | none => simp [PP.createRoom, PP.DEFAULT_DECK]
    | some l => simpa [PP.createRoom] using hdk l rfl
  suffices hgen : ∀ (l : List PP.Op) (room : PP.Room), room.deck ≠ [] →
      (l.foldl PP.applyOp room).deck ≠ [] from hgen ops _ h0
  intro l
  induction l with
  | nil => exact fun room hr => hr
  | cons op rest ih =>
    exact fun room hr => ih _ (applyOp_preserves_deck_nonempty room op hr)

/-- C8 witness: a default-deck room hit by a malicious empty `set_deck`
followed by a story edit, a reveal and a reset still has a non-empty
deck. -/
theorem c8_witness :
    (([PP.Op.setDeck (some []), PP.Op.setStory "t", PP.Op.reveal,
        PP.Op.reset false]).foldl PP.applyOp (PP.createRoom "r" none 0)).deck ≠ [] :=
  c8_deck_nonempty_reachable "r" none 0
    [PP.Op.setDeck (some []), PP.Op.setStory "t", PP.Op.reveal, PP.Op.reset false]
    (fun _ hl => nomatch hl)

/-! ### C9 — the throw handler -/

/-- Registry of the C9 counterexample: only room "abc" exists. -/
def c9Registry : PP.Registry := [("abc", PP.createRoom "abc" none 0)]

/-- C9 (counterexample): a throw aimed at room id "zzz" — absent from the
registry — is not rejected: the handler emits a payload anyway, because it
only checks that a room id is supplied, never that the room exists. -/
theorem c9_counterexample :
    alookup "zzz" c9Registry = none ∧
      (PP.throwStep c9Registry "zzz" (some "🎉") none "left" none "e1" 0 0).2 ≠ none ∧
      (PP.throwStep c9Registry "zzz" (some "🎉") none "left" none "e1" 0 0).1 =
        c9Registry := by
  refine ⟨rfl, ?_, rfl⟩
  simp [PP.throwStep]

/-- C9 (amended): the throw handler validates only that a room id is
supplied (JS-truthy): a falsy room id yields no emission, any other —
existing room or not — yields the sanitized payload carrying the freshly
generated event id and the two random seeds; the registry (and hence
every room) is left untouched in both cases. -/
theorem c9_throw_frame (rooms : PP.Registry) (roomId : String) (item img : Option String)
    (side : String) (targetId : Option String) (freshId : String) (s1 s2 : ℚ) :
    (PP.throwStep rooms roomId item img side targetId freshId s1 s2).1 = rooms ∧
      (PP.throwStep rooms roomId item img side targetId freshId s1 s2).2 =
        (if roomId = "" then none
         else some (PP.throwPayloadOf item img side targetId freshId s1 s2)) ∧
      ((PP.throwStep rooms roomId item img side targetId freshId s1 s2).2.map
          ThrowPayload.id) = (if roomId = "" then none else some freshId) ∧
      ((PP.throwStep rooms roomId item img side targetId freshId s1 s2).2.map
          ThrowPayload.s1) = (if roomId = "" then none else some s1) ∧
      ((PP.throwStep rooms roomId item img side targetId freshId s1 s2).2.map
          ThrowPayload.s2) = (if roomId = "" then none else some s2) := by
  by_cases h : roomId = "" <;>
    simp [PP.throwStep, PP.throwPayloadOf, h]

/-! ### C10 — spectators cannot vote in the src/server/server.js variant -/

/-- C10: in `src/server/server.js`, a `cast_vote` whose caller resolves to
a spectator participant is a complete no-op: the room is returned
unchanged and nothing is broadcast. -/
theorem c10_spectator_vote_noop (room : SJS.Room) (cid : String) (value : String)
    (u : SJS.User) (hu : alookup cid room.users = some u) (hs : u.spectator = true) :
    SJS.castVote room (some cid) value = (room, []) := by
  simp [SJS.castVote, hu, hs]

/-- Room of the C10 witness: "S" is a spectator. -/
def c10Room : SJS.Room :=
  { id := "rs", deck := ["1", "2"], story := "", revealed := false,
    users := [("S", { name := "sam", vote := none, spectator := true, host := false })] }

/-- C10 witness: the spectator "S" casting "5" concretely changes nothing
and emits nothing. -/
theorem c10_witness : SJS.castVote c10Room (some "S") "5" = (c10Room, []) :=
  c10_spectator_vote_noop c10Room "S" "5"
    { name := "sam", vote := none, spectator := true, host := false } rfl rfl
